import Mathlib

/-!
Verification development for the `python-lastfm` client library
(single source file `lastfm.py`).

The development is a shallow embedding of the Python source: Python
values flowing through the parser are modelled by `JsonVal` (dicts as
insertion-ordered association lists, as in CPython), raised exceptions by
`Except PyErr`, and the `functools.lru_cache` decorator on `build_qs` by
an explicit LRU state threaded through the call.  Every definition is
transcribed from `lastfm.py`; definitions that model the *statement* of a
claim rather than the source (e.g. the query-string decoder used to state
set-equality of URL parameters) are marked as such in their doc comments.
-/

set_option linter.unusedVariables false

/-- Python exceptions that the embedded code can raise.  `lastFMError`
models the `LastFMError(errorcode, error)` class of the repository. -/
inductive PyErr where
  | assertionError : PyErr
  | attributeError : PyErr
  | typeError : PyErr
  | keyError : PyErr
  | indexError : PyErr
  | valueError : PyErr
  | exception (msg : String) : PyErr
  | lastFMError (errorcode : Nat) (error : String) : PyErr
deriving DecidableEq

/-- Python values as produced by `json.loads` (and passed around the
library): `None`, `bool`, `int`, `str`, `list` and insertion-ordered
`dict`. -/
inductive JsonVal where
  | null : JsonVal
  | bool (b : Bool) : JsonVal
  | num (n : Int) : JsonVal
  | str (s : String) : JsonVal
  | arr (items : List JsonVal) : JsonVal
  | obj (fields : List (String × JsonVal)) : JsonVal

/-- `d[key]` lookup in an insertion-ordered dict modelled as an
association list (keys are unique in any dict produced by `json.loads`). -/
def dictLookup {α : Type} (d : List (String × α)) (key : String) : Option α :=
  (d.find? (fun p => p.1 == key)).map (fun p => p.2)

/-- `key in d` for a dict. -/
def dictContains {α : Type} (d : List (String × α)) (key : String) : Bool :=
  d.any (fun p => p.1 == key)

/-- `d[key] = v` for a dict: overwrite in place when the key exists,
append otherwise (CPython insertion-order semantics). -/
def dictSet {α : Type} (d : List (String × α)) (key : String) (v : α) : List (String × α) :=
  if dictContains d key then d.map (fun p => if p.1 == key then (key, v) else p)
  else d ++ [(key, v)]

/-- Does `text` start with `pat`? -/
def charsStartWith : List Char → List Char → Bool
  | [], _ => true
  | _ :: _, [] => false
  | p :: ps, t :: ts => p == t && charsStartWith ps ts

/-- Does the text contain `pat` as a contiguous run? -/
def charsContain (pat : List Char) : List Char → Bool
  | [] => charsStartWith pat []
  | t :: ts => charsStartWith pat (t :: ts) || charsContain pat ts

/-- Python `pat in s` on strings: substring containment. -/
def strContains (s pat : String) : Bool := charsContain pat.data s.data

mutual
/-- Python `==` between the values modelled by `JsonVal`.  `bool` compares
equal to the corresponding `int` (CPython `True == 1`); dict comparison is
insertion-order-insensitive. -/
def pyEq : JsonVal → JsonVal → Bool
  | .null, .null => true
  | .bool a, .bool b => a == b
  | .bool a, .num n => (if a then (1 : Int) else 0) == n
  | .num n, .bool a => n == (if a then (1 : Int) else 0)
  | .num a, .num b => a == b
  | .str a, .str b => a == b
  | .arr a, .arr b => pyEqList a b
  | .obj a, .obj b => a.length == b.length && pyEqObj a b
  | _, _ => false

/-- Elementwise Python `==` on lists. -/
def pyEqList : List JsonVal → List JsonVal → Bool
  | [], [] => true
  | x :: xs, y :: ys => pyEq x y && pyEqList xs ys
  | _, _ => false

/-- Every binding of the first dict is matched by the second. -/
def pyEqObj : List (String × JsonVal) → List (String × JsonVal) → Bool
  | [], _ => true
  | (k, v) :: rest, b =>
    (match dictLookup b k with
     | some w => pyEq v w
     | none => false) && pyEqObj rest b
end

mutual
/-- Python `str(v)` for the values modelled by `JsonVal`. -/
def pyStr : JsonVal → String
  | .null => "None"
  | .bool true => "True"
  | .bool false => "False"
  | .num n => toString n
  | .str s => s
  | .arr items => "[" ++ pyStrList items ++ "]"
  | .obj fields => "\x7b" ++ pyStrObj fields ++ "\x7d"

/-- Comma-separated `repr`s of list elements. -/
def pyStrList : List JsonVal → String
  | [] => ""
  | [x] => pyReprAtom x
  | x :: rest => pyReprAtom x ++ ", " ++ pyStrList rest

/-- Comma-separated `repr(k): repr(v)` of dict entries. -/
def pyStrObj : List (String × JsonVal) → String
  | [] => ""
  | [(k, v)] => "\x27" ++ k ++ "\x27: " ++ pyReprAtom v
  | (k, v) :: rest => "\x27" ++ k ++ "\x27: " ++ pyReprAtom v ++ ", " ++ pyStrObj rest

/-- Python `repr(v)`: like `str` but strings are quoted. -/
def pyReprAtom : JsonVal → String
  | .str s => "\x27" ++ s ++ "\x27"
  | .null => "None"
  | .bool true => "True"
  | .bool false => "False"
  | .num n => toString n
  | .arr items => "[" ++ pyStrList items ++ "]"
  | .obj fields => "\x7b" ++ pyStrObj fields ++ "\x7d"
end

/-- Python truthiness (`assert user`, `if user:`). -/
def pyTruthy : JsonVal → Bool
  | .null => false
  | .bool b => b
  | .num n => n != 0
  | .str s => s != ""
  | .arr items => !items.isEmpty
  | .obj fields => !fields.isEmpty

/-- Python `key in v`.  On a dict this is key membership, on a *string* it
is substring containment, on a list it is element membership; on the
remaining values it raises `TypeError` (argument not iterable). -/
def pyIn (key : String) (v : JsonVal) : Except PyErr Bool :=
  match v with
  | .obj fields => .ok (dictContains fields key)
  | .str s => .ok (strContains s key)
  | .arr items => .ok (items.any (fun it => pyEq it (JsonVal.str key)))
  | _ => .error PyErr.typeError

/-- Python `v[key]` with a string key: dict lookup (`KeyError` when the
key is absent); indexing a string or list with a string raises
`TypeError`, as does subscripting any other value. -/
def pyIndexStr (v : JsonVal) (key : String) : Except PyErr JsonVal :=
  match v with
  | .obj fields =>
    match dictLookup fields key with
    | some x => .ok x
    | none => .error PyErr.keyError
  | _ => .error PyErr.typeError

/-- `v is None` (in this model, identity with `None` coincides with being
the `null` value). -/
def JsonVal.isNull : JsonVal → Bool
  | .null => true
  | _ => false

/-- The `Track` entity (`class Track`): `__init__` stores `artist` and
`title` and reads every other field from `kwargs` with default `None`. -/
structure Track where
  artist : JsonVal
  title : JsonVal
  album : JsonVal := JsonVal.null
  tags : JsonVal := JsonVal.null
  duration : JsonVal := JsonVal.null
  loved : JsonVal := JsonVal.null
  mbid : JsonVal := JsonVal.null
  playing : JsonVal := JsonVal.null
  description : JsonVal := JsonVal.null

/-- `Track.from_json`, artist extraction: `json["artist"]["#text"]` when
`"#text" in json["artist"]`, else `str(json["artist"])`. -/
def json_artist_field (j : JsonVal) : Except PyErr JsonVal :=
  match pyIndexStr j "artist" with
  | .error e => .error e
  | .ok artistV =>
    match pyIn "#text" artistV with
    | .error e => .error e
    | .ok hasText =>
      if hasText then pyIndexStr artistV "#text"
      else .ok (JsonVal.str (pyStr artistV))

/-- `Track.from_json`, album keyword: set only when `"album" in json`,
with the same two-shape rule as the artist. -/
def json_album_kw (j : JsonVal) : Except PyErr (Option JsonVal) :=
  match pyIn "album" j with
  | .error e => .error e
  | .ok hasAlbum =>
    if hasAlbum then
      match pyIndexStr j "album" with
      | .error e => .error e
      | .ok albumV =>
        match pyIn "#text" albumV with
        | .error e => .error e
        | .ok hasText =>
          if hasText then
            match pyIndexStr albumV "#text" with
            | .error e => .error e
            | .ok v => .ok (some v)
          else .ok (some (JsonVal.str (pyStr albumV)))
    else .ok none

/-- `Track.from_json`, playing keyword:
`("@attr" in json and "nowplaying" in json["@attr"])`. -/
def json_playing_kw (j : JsonVal) : Except PyErr Bool :=
  match pyIn "@attr" j with
  | .error e => .error e
  | .ok hasAttr =>
    if hasAttr then
      match pyIndexStr j "@attr" with
      | .error e => .error e
      | .ok attrV => pyIn "nowplaying" attrV
    else .ok false

/-- `Track.from_json`, mbid keyword: set only when
`"mbid" in json and json["mbid"] != ""`. -/
def json_mbid_kw (j : JsonVal) : Except PyErr (Option JsonVal) :=
  match pyIn "mbid" j with
  | .error e => .error e
  | .ok hasMbid =>
    if hasMbid then
      match pyIndexStr j "mbid" with
      | .error e => .error e
      | .ok m => if !(pyEq m (JsonVal.str "")) then .ok (some m) else .ok none
    else .ok none

/-- `Track.from_json`, loved keyword: set only when `"loved" in json`, to
`json["loved"] == "1"`; absent means indeterminate (the source comment). -/
def json_loved_kw (j : JsonVal) : Except PyErr (Option Bool) :=
  match pyIn "loved" j with
  | .error e => .error e
  | .ok hasLoved =>
    if hasLoved then
      match pyIndexStr j "loved" with
      | .error e => .error e
      | .ok l => .ok (some (pyEq l (JsonVal.str "1")))
    else .ok none

/-- `Track.from_json(cls, json)`: asserts `"name" in json` and
`"artist" in json`, extracts the fields in source order, and constructs
`cls(artist, title, **kw)`. -/
def Track.from_json (j : JsonVal) : Except PyErr Track :=
  match pyIn "name" j with
  | .error e => .error e
  | .ok nameIn =>
    if !nameIn then .error PyErr.assertionError
    else
      match pyIn "artist" j with
      | .error e => .error e
      | .ok artistIn =>
        if !artistIn then .error PyErr.assertionError
        else
          match json_artist_field j with
          | .error e => .error e
          | .ok artist =>
            match pyIndexStr j "name" with
            | .error e => .error e
            | .ok title =>
              match json_album_kw j with
              | .error e => .error e
              | .ok albumKw =>
                match json_playing_kw j with
                | .error e => .error e
                | .ok playing =>
                  match json_mbid_kw j with
                  | .error e => .error e
                  | .ok mbidKw =>
                    match json_loved_kw j with
                    | .error e => .error e
                    | .ok lovedKw =>
                      .ok { artist := artist, title := title,
                            album := albumKw.getD JsonVal.null,
                            loved := (lovedKw.map JsonVal.bool).getD JsonVal.null,
                            mbid := mbidKw.getD JsonVal.null,
                            playing := JsonVal.bool playing }

/-- XML DOM nodes as built by `xml.dom.minidom`: text nodes and elements
with attributes and children. -/
inductive XmlNode where
  | text (data : String) : XmlNode
  | elem (tagName : String) (attrs : List (String × String)) (children : List XmlNode) : XmlNode

/-- Concatenated data of the direct text-node children
(the loop body of `xml_get_text`). -/
def childTextConcat : List XmlNode → String
  | [] => ""
  | .text d :: rest => d ++ childTextConcat rest
  | .elem _ _ _ :: rest => childTextConcat rest

/-- `xml_get_text(tag)`: join the data of the direct text-node children. -/
def xml_get_text (n : XmlNode) : String :=
  match n with
  | .text _ => ""
  | .elem _ _ children => childTextConcat children

mutual
/-- `node.getElementsByTagName(name)`: matching *descendant* elements in
document (preorder)
order, the node itself excluded, as in `minidom`. -/
def getElems (name : String) : XmlNode → List XmlNode
  | .text _ => []
  | .elem _ _ children => getElemsList name children

/-- `getElementsByTagName` over a sibling list: each matching child comes
before its own descendants. -/
def getElemsList (name : String) : List XmlNode → List XmlNode
  | [] => []
  | c :: rest =>
    (match c with
     | .elem t _ _ => if t == name then [c] else []
     | .text _ => []) ++ getElems name c ++ getElemsList name rest
end

/-- `node.hasAttribute(name)`. -/
def XmlNode.hasAttribute (n : XmlNode) (name : String) : Bool :=
  match n with
  | .text _ => false
  | .elem _ attrs _ => dictContains attrs name

/-- `xs[0]`: `IndexError` on an empty list. -/
def listGet0 {α : Type} : List α → Except PyErr α
  | [] => .error PyErr.indexError
  | x :: _ => .ok x

/-- `Track.from_xml(cls, xml)`: index `[0]` of the `artist`, `name`,
`album` and `mbid` element lists in source order (each raising
`IndexError` when empty), normalize empty `album`/`mbid` text to absent,
derive `playing` from the `nowplaying` attribute and `loved` from an
optional child element. -/
def Track.from_xml (x : XmlNode) : Except PyErr Track :=
  match listGet0 (getElems "artist" x) with
  | .error e => .error e
  | .ok artistEl =>
    match listGet0 (getElems "name" x) with
    | .error e => .error e
    | .ok titleEl =>
      match listGet0 (getElems "album" x) with
      | .error e => .error e
      | .ok albumEl =>
        match listGet0 (getElems "mbid" x) with
        | .error e => .error e
        | .ok mbidEl =>
          .ok { artist := JsonVal.str (xml_get_text artistEl),
                title := JsonVal.str (xml_get_text titleEl),
                album := if xml_get_text albumEl != "" then JsonVal.str (xml_get_text albumEl)
                         else JsonVal.null,
                mbid := if xml_get_text mbidEl != "" then JsonVal.str (xml_get_text mbidEl)
                        else JsonVal.null,
                playing := JsonVal.bool (x.hasAttribute "nowplaying"),
                loved := (match getElems "loved" x with
                          | [] => JsonVal.null
                          | l :: _ => JsonVal.bool (xml_get_text l == "1")) }

/-- Left brace character (spelled via its code point). -/
def charLBrace : Char := Char.ofNat 123

/-- Right brace character (spelled via its code point). -/
def charRBrace : Char := Char.ofNat 125

/-- Value of a hexadecimal digit. -/
def hexVal (c : Char) : Option Nat :=
  if c.isDigit then some (c.toNat - 48)
  else if 97 ≤ c.toNat && c.toNat ≤ 102 then some (c.toNat - 87)
  else if 65 ≤ c.toNat && c.toNat ≤ 70 then some (c.toNat - 55)
  else none

/-- Drop leading whitespace. -/
def skipWs : List Char → List Char
  | c :: rest =>
    if c == ' ' || c == '\t' || c == '\n' || c == '\r' then skipWs rest else c :: rest
  | [] => []

/-- Strip `pat` from the front of the text, or fail. -/
def charsDrop : List Char → List Char → Option (List Char)
  | [], r => some r
  | p :: ps, c :: r => if p == c then charsDrop ps r else none
  | _ :: _, [] => none

/-- Leading decimal digits of the text, and the remainder. -/
def takeDigits : List Char → List Char × List Char
  | [] => ([], [])
  | c :: rest =>
    if c.isDigit then
      let p := takeDigits rest
      (c :: p.1, p.2)
    else ([], c :: rest)

/-- Decimal digits to a natural number. -/
def digitsToNat (ds : List Char) : Nat :=
  ds.foldl (fun acc c => 10 * acc + (c.toNat - 48)) 0

/-- String-literal body of a JSON string (model of the stdlib scanner;
fuel-indexed). -/
def jsonParseStrAux : Nat → List Char → List Char → Except PyErr (String × List Char)
  | 0, _, _ => .error PyErr.valueError
  | fuel + 1, acc, cs =>
    match cs with
    | [] => .error PyErr.valueError
    | c :: rest =>
      if c == '"' then .ok (String.mk acc.reverse, rest)
      else if c == '\\' then
        match rest with
        | [] => .error PyErr.valueError
        | e :: rest2 =>
          if e == '"' then jsonParseStrAux fuel ('"' :: acc) rest2
          else if e == '\\' then jsonParseStrAux fuel ('\\' :: acc) rest2
          else if e == '/' then jsonParseStrAux fuel ('/' :: acc) rest2
          else if e == 'n' then jsonParseStrAux fuel ('\n' :: acc) rest2
          else if e == 't' then jsonParseStrAux fuel ('\t' :: acc) rest2
          else if e == 'r' then jsonParseStrAux fuel ('\r' :: acc) rest2
          else if e == 'b' then jsonParseStrAux fuel (Char.ofNat 8 :: acc) rest2
          else if e == 'f' then jsonParseStrAux fuel (Char.ofNat 12 :: acc) rest2
          else if e == 'u' then
            match rest2 with
            | h1 :: h2 :: h3 :: h4 :: rest3 =>
              match hexVal h1, hexVal h2, hexVal h3, hexVal h4 with
              | some a, some b, some c2, some d =>
                jsonParseStrAux fuel (Char.ofNat (4096 * a + 256 * b + 16 * c2 + d) :: acc) rest3
              | _, _, _, _ => .error PyErr.valueError
            | _ => .error PyErr.valueError
          else .error PyErr.valueError
      else jsonParseStrAux fuel (c :: acc) rest

mutual
/-- Model of the stdlib `json.loads` recursive-descent scanner for one
value (fuel-indexed; integers only — no claim depends on the scanner). -/
def jsonParseVal : Nat → List Char → Except PyErr (JsonVal × List Char)
  | 0, _ => .error PyErr.valueError
  | fuel + 1, cs =>
    match skipWs cs with
    | [] => .error PyErr.valueError
    | c :: rest =>
      if c == '"' then
        match jsonParseStrAux (fuel + 1) [] rest with
        | .error e => .error e
        | .ok (s, r) => .ok (JsonVal.str s, r)
      else if c == 't' then
        match charsDrop "rue".data rest with
        | some r => .ok (JsonVal.bool true, r)
        | none => .error PyErr.valueError
      else if c == 'f' then
        match charsDrop "alse".data rest with
        | some r => .ok (JsonVal.bool false, r)
        | none => .error PyErr.valueError
      else if c == 'n' then
        match charsDrop "ull".data rest with
        | some r => .ok (JsonVal.null, r)
        | none => .error PyErr.valueError
      else if c == '-' then
        match takeDigits rest with
        | ([], _) => .error PyErr.valueError
        | (ds, r) => .ok (JsonVal.num (-(digitsToNat ds : Int)), r)
      else if c.isDigit then
        match takeDigits (c :: rest) with
        | ([], _) => .error PyErr.valueError
        | (ds, r) => .ok (JsonVal.num (digitsToNat ds : Int), r)
      else if c == '[' then
        match skipWs rest with
        | ']' :: r => .ok (JsonVal.arr [], r)
        | other => jsonParseArrItems fuel [] other
      else if c == charLBrace then
        match skipWs rest with
        | d :: r =>
          if d == charRBrace then .ok (JsonVal.obj [], r)
          else jsonParseObjItems fuel [] (d :: r)
        | [] => .error PyErr.valueError
      else .error PyErr.valueError

/-- Elements of a JSON array after the opening bracket. -/
def jsonParseArrItems : Nat → List JsonVal → List Char → Except PyErr (JsonVal × List Char)
  | 0, _, _ => .error PyErr.valueError
  | fuel + 1, acc, cs =>
    match jsonParseVal fuel cs with
    | .error e => .error e
    | .ok (v, r) =>
      match skipWs r with
      | ',' :: r2 => jsonParseArrItems fuel (v :: acc) r2
      | ']' :: r2 => .ok (JsonVal.arr (v :: acc).reverse, r2)
      | _ => .error PyErr.valueError

/-- Members of a JSON object after the opening brace (a repeated key
overwrites the earlier one, as in CPython). -/
def jsonParseObjItems : Nat → List (String × JsonVal) → List Char →
    Except PyErr (JsonVal × List Char)
  | 0, _, _ => .error PyErr.valueError
  | fuel + 1, acc, cs =>
    match skipWs cs with
    | '"' :: r =>
      match jsonParseStrAux (fuel + 1) [] r with
      | .error e => .error e
      | .ok (k, r2) =>
        match skipWs r2 with
        | ':' :: r3 =>
          match jsonParseVal fuel r3 with
          | .error e => .error e
          | .ok (v, r4) =>
            match skipWs r4 with
            | ',' :: r5 => jsonParseObjItems fuel (dictSet acc k v) r5
            | d :: r5 =>
              if d == charRBrace then .ok (JsonVal.obj (dictSet acc k v), r5)
              else .error PyErr.valueError
            | [] => .error PyErr.valueError
        | _ => .error PyErr.valueError
    | _ => .error PyErr.valueError
end

/-- `json.loads` (stdlib model): parse one value and require only
whitespace after it; failures are `ValueError`s (`JSONDecodeError`). -/
def json_loads (s : String) : Except PyErr JsonVal :=
  match jsonParseVal (2 * s.length + 2) s.data with
  | .error e => .error e
  | .ok (v, rest) =>
    if (skipWs rest).isEmpty then .ok v else .error PyErr.valueError

/-- Characters allowed in an XML name (simplified). -/
def xmlNameChar (c : Char) : Bool :=
  c.isAlpha || c.isDigit || c == '_' || c == '-' || c == ':' || c == '.'

/-- Leading XML-name characters of the text, and the remainder. -/
def takeXmlName : List Char → List Char × List Char
  | [] => ([], [])
  | c :: rest =>
    if xmlNameChar c then
      let p := takeXmlName rest
      (c :: p.1, p.2)
    else ([], c :: rest)

/-- Text-node data: characters up to the next markup start. -/
def takeUntilLt : List Char → List Char × List Char
  | [] => ([], [])
  | c :: rest =>
    if c == '<' then ([], c :: rest)
    else
      let p := takeUntilLt rest
      (c :: p.1, p.2)

/-- Attribute-value characters up to the closing quote. -/
def takeUntilQuote : List Char → List Char × List Char
  | [] => ([], [])
  | c :: rest =>
    if c == '"' then ([], c :: rest)
    else
      let p := takeUntilQuote rest
      (c :: p.1, p.2)

mutual
/-- Attribute list of an element tag (model of the stdlib expat-based
scanner used by `minidom`; fuel-indexed). -/
def xmlParseAttrs : Nat → List (String × String) → List Char →
    Except PyErr (List (String × String) × List Char)
  | 0, _, _ => .error (PyErr.exception "ExpatError")
  | fuel + 1, acc, cs =>
    match skipWs cs with
    | [] => .error (PyErr.exception "ExpatError")
    | c :: rest =>
      if c == '>' || c == '/' then .ok (acc.reverse, c :: rest)
      else
        match takeXmlName (c :: rest) with
        | ([], _) => .error (PyErr.exception "ExpatError")
        | (nm, r1) =>
          match skipWs r1 with
          | '=' :: r2 =>
            match skipWs r2 with
            | '"' :: r3 =>
              let p := takeUntilQuote r3
              match p.2 with
              | '"' :: r4 => xmlParseAttrs fuel ((String.mk nm, String.mk p.1) :: acc) r4
              | _ => .error (PyErr.exception "ExpatError")
            | _ => .error (PyErr.exception "ExpatError")
          | _ => .error (PyErr.exception "ExpatError")

/-- One element after its opening `<`. -/
def xmlParseElem : Nat → List Char → Except PyErr (XmlNode × List Char)
  | 0, _ => .error (PyErr.exception "ExpatError")
  | fuel + 1, cs =>
    match takeXmlName cs with
    | ([], _) => .error (PyErr.exception "ExpatError")
    | (nm, r1) =>
      match xmlParseAttrs fuel [] r1 with
      | .error e => .error e
      | .ok (attrs, r2) =>
        match r2 with
        | '/' :: '>' :: r3 => .ok (XmlNode.elem (String.mk nm) attrs [], r3)
        | '>' :: r3 =>
          match xmlParseChildren fuel [] r3 with
          | .error e => .error e
          | .ok (children, r4) =>
            match r4 with
            | '<' :: '/' :: r5 =>
              match charsDrop nm r5 with
              | some r6 =>
                match skipWs r6 with
                | '>' :: r7 => .ok (XmlNode.elem (String.mk nm) attrs children, r7)
                | _ => .error (PyErr.exception "ExpatError")
              | none => .error (PyErr.exception "ExpatError")
            | _ => .error (PyErr.exception "ExpatError")
        | _ => .error (PyErr.exception "ExpatError")

/-- Child nodes up to the enclosing end tag. -/
def xmlParseChildren : Nat → List XmlNode → List Char →
    Except PyErr (List XmlNode × List Char)
  | 0, _, _ => .error (PyErr.exception "ExpatError")
  | fuel + 1, acc, cs =>
    match cs with
    | [] => .error (PyErr.exception "ExpatError")
    | '<' :: '/' :: rest => .ok (acc.reverse, '<' :: '/' :: rest)
    | '<' :: rest =>
      match xmlParseElem fuel rest with
      | .error e => .error e
      | .ok (el, r) => xmlParseChildren fuel (el :: acc) r
    | _ =>
      let p := takeUntilLt cs
      xmlParseChildren fuel (XmlNode.text (String.mk p.1) :: acc) p.2
end

/-- Drop an optional `<?xml ... ?>` prologue. -/
def dropPrologueAux : List Char → List Char
  | [] => []
  | '?' :: '>' :: rest => rest
  | _ :: rest => dropPrologueAux rest

/-- `xml.dom.minidom.parseString` (stdlib model): optional prologue, one
root element, wrapped in a document node (entities and comments are not
modelled; no claim depends on the scanner). -/
def minidom_parseString (s : String) : Except PyErr XmlNode :=
  let cs := skipWs s.data
  let cs2 := match cs with
    | '<' :: '?' :: rest => skipWs (dropPrologueAux rest)
    | other => other
  match cs2 with
  | '<' :: rest =>
    match xmlParseElem (2 * s.length + 2) rest with
    | .error e => .error e
    | .ok (el, r) =>
      if (skipWs r).isEmpty then .ok (XmlNode.elem "#document" [] [el])
      else .error (PyErr.exception "ExpatError")
  | _ => .error (PyErr.exception "ExpatError")

/-- The `LastFM` client.  `instId` models CPython object identity: the
`functools.lru_cache` on the *methods* hashes `self` by identity, so the
identity — and not the current attribute values — is the part of the
cache key contributed by the instance. -/
structure LastFM where
  instId : Nat
  api_key : String
  fmt : String

/-- The class attribute `LastFM.url`, the API endpoint. -/
def LastFM.endpointUrl : String := "http://ws.audioscrobbler.com/2.0/"

/-- `LastFM.__init__`: lowercase the format and assert it is json or xml. -/
def LastFM.init (instId : Nat) (api_key : String) (fmt : String) : Except PyErr LastFM :=
  let f := fmt.toLower
  if f == "json" || f == "xml" then .ok ⟨instId, api_key, f⟩
  else .error PyErr.assertionError

/-- Python `==` on two kwargs tuples (the shape `lru_cache` keys have). -/
def paramsEq : List (String × JsonVal) → List (String × JsonVal) → Bool
  | [], [] => true
  | (k, v) :: a, (l, w) :: b => k == l && pyEq v w && paramsEq a b
  | _, _ => false

/-- An `lru_cache` key for a method call: the identity of `self` plus the
kwargs items in call order (`functools._make_key` does not sort kwargs). -/
def qsKeyEq (a b : Nat × List (String × JsonVal)) : Bool :=
  a.1 == b.1 && paramsEq a.2 b.2

/-- State of one `functools.lru_cache` (most-recently-used first). -/
structure LruCache where
  entries : List ((Nat × List (String × JsonVal)) × String)
  maxsize : Nat

/-- A fresh `lru_cache(maxsize=n)`. -/
def LruCache.empty (n : Nat) : LruCache := ⟨[], n⟩

/-- One call through an `lru_cache`-wrapped function: a hit returns the
cached value and promotes the entry; a miss computes, inserts the entry
most-recently-used and evicts beyond `maxsize`. -/
def lruCall (c : LruCache) (k : Nat × List (String × JsonVal)) (compute : Unit → String) :
    String × LruCache :=
  match c.entries.find? (fun e => qsKeyEq e.1 k) with
  | some e => (e.2, ⟨e :: c.entries.filter (fun x => !qsKeyEq x.1 k), c.maxsize⟩)
  | none =>
    let v := compute ()
    (v, ⟨((k, v) :: c.entries).take c.maxsize, c.maxsize⟩)

/-- UTF-8 bytes of a code point. -/
def utf8Bytes (n : Nat) : List Nat :=
  if n < 128 then [n]
  else if n < 2048 then [192 + n / 64, 128 + n % 64]
  else if n < 65536 then [224 + n / 4096, 128 + (n / 64) % 64, 128 + n % 64]
  else [240 + n / 262144, 128 + (n / 4096) % 64, 128 + (n / 64) % 64, 128 + n % 64]

/-- Uppercase hexadecimal digit. -/
def hexDigitChar (n : Nat) : Char :=
  if n < 10 then Char.ofNat (48 + n) else Char.ofNat (55 + n)

/-- `%XX` escape of one byte. -/
def percentByte (b : Nat) : List Char :=
  ['%', hexDigitChar (b / 16), hexDigitChar (b % 16)]

/-- Characters `urllib.parse.quote_plus` leaves unescaped (letters,
digits and `_ . - ~`). -/
def quoteSafeChar (c : Char) : Bool :=
  c.isAlpha || c.isDigit || c == '_' || c == '.' || c == '-' || c == '~'

/-- `quote_plus` on one character: safe characters pass, space becomes
`+`, everything else is percent-escaped bytewise. -/
def quotePlusChar (c : Char) : List Char :=
  if quoteSafeChar c then [c]
  else if c == ' ' then ['+']
  else (utf8Bytes c.toNat).flatMap percentByte

/-- `urllib.parse.quote_plus`. -/
def quote_plus (s : String) : String := String.mk (s.data.flatMap quotePlusChar)

/-- `urllib.parse.urlencode`: `quote_plus(str(k)) = quote_plus(str(v))`
pairs joined by ampersands, in dict insertion order. -/
def urlencode (params : List (String × JsonVal)) : String :=
  String.intercalate "&" (params.map (fun p => quote_plus p.1 ++ "=" ++ quote_plus (pyStr p.2)))

/-- The body of `LastFM.build_qs`: set `keys["api_key"]` to the *current*
`self.api_key` and join the endpoint with the encoded query. -/
def build_qs_body (fm : LastFM) (keys : List (String × JsonVal)) : String :=
  LastFM.endpointUrl ++ "?" ++ urlencode (dictSet keys "api_key" (JsonVal.str fm.api_key))

/-- `LastFM.build_qs`, including its `@lru_cache(maxsize=32)` wrapper:
the cache key is `(self, **keys)` — `self` by identity — so the body runs
only on a miss. -/
def build_qs (fm : LastFM) (c : LruCache) (keys : List (String × JsonVal)) :
    String × LruCache :=
  lruCall c (fm.instId, keys) (fun _ => build_qs_body fm keys)

/-- The kwargs `call_api` hands to `build_qs`: `keys["method"] = method`,
and `keys["format"] = self.fmt` only when the configured format is json. -/
def call_api_keys (fm : LastFM) (method : String) (keys : List (String × JsonVal)) :
    List (String × JsonVal) :=
  let keys1 := dictSet keys "method" (JsonVal.str method)
  if fm.fmt == "json" then dictSet keys1 "format" (JsonVal.str fm.fmt) else keys1

/-- An HTTP response as exposed by the transport (`aiohttp.request`):
a status code and the result of `text()` (which may itself raise, the
`except` branch in `call_api`). -/
structure HttpResponse where
  status : Nat
  text : Except String String

/-- Result of `parse_data`: a JSON tree (`json.loads`) or an XML document
(`minidom.parseString`), depending on the configured format. -/
inductive ParsedData where
  | jsonData (v : JsonVal) : ParsedData
  | xmlData (d : XmlNode) : ParsedData

/-- `LastFM.parse_data`: dispatch on `self.fmt`.  The source wraps this
in `@lru_cache(maxsize=16)`; the cache is elided here because the
function is pure in `(self.fmt, response)` and no claim observes it. -/
def parse_data (fm : LastFM) (response : String) : Except PyErr ParsedData :=
  if fm.fmt == "json" then
    match json_loads response with
    | .error e => .error e
    | .ok v => .ok (ParsedData.jsonData v)
  else
    match minidom_parseString response with
    | .error e => .error e
    | .ok d => .ok (ParsedData.xmlData d)

/-- `LastFM.call_api`: build the query string, perform one GET (the
transport is the `http` oracle), raise `LastFMError(status, text)` on a
non-200 status — with the `<Server error: ...>` fallback when reading the
body itself fails — and otherwise parse the body.  Besides the result and
the cache it returns the list of URLs actually requested. -/
def call_api (fm : LastFM) (c : LruCache) (method : String)
    (keys : List (String × JsonVal)) (http : String → HttpResponse) :
    Except PyErr ParsedData × LruCache × List String :=
  let keys1 := call_api_keys fm method keys
  let built := build_qs fm c keys1
  let url := built.1
  let c1 := built.2
  let resp := http url
  if resp.status ≠ 200 then
    match resp.text with
    | .ok d => (.error (PyErr.lastFMError resp.status d), c1, [url])
    | .error e =>
      (.error (PyErr.lastFMError resp.status ("<Server error: " ++ e ++ ">")), c1, [url])
  else
    match resp.text with
    | .ok d => (parse_data fm d, c1, [url])
    | .error e => (.error (PyErr.exception e), c1, [url])

/-- The guard of the `assert` in the json branch of `get_tracks`:
`"recenttracks" in data and "track" in data["recenttracks"]`
(short-circuiting). -/
def extract_tracks_assert (data : JsonVal) : Except PyErr Bool :=
  match pyIn "recenttracks" data with
  | .error e => .error e
  | .ok hasRT =>
    if hasRT then
      match pyIndexStr data "recenttracks" with
      | .error e => .error e
      | .ok rt => pyIn "track" rt
    else .ok false

/-- The json branch of `get_tracks` after `call_api`: assert the response
shape, take `data["recenttracks"]["track"]`, wrap a bare non-list value
into a one-element list, and map `Track.from_json`. -/
def extract_tracks_json (data : JsonVal) : Except PyErr (List Track) :=
  match extract_tracks_assert data with
  | .error e => .error e
  | .ok ok =>
    if !ok then .error PyErr.assertionError
    else
      match pyIndexStr data "recenttracks" with
      | .error e => .error e
      | .ok rt =>
        match pyIndexStr rt "track" with
        | .error e => .error e
        | .ok tr =>
          (match tr with
           | JsonVal.arr l => l
           | t => [t]).mapM Track.from_json

/-- `LastFM.get_tracks`: assert the user is neither `None` nor empty
*before* anything else, add `extended=1` and the optional `limit`, call
the API, and map the per-format track extraction over the response.  The
`elif self.fmt == "xml"` of the source is modelled as the else branch (the
constructor asserts the format is json or xml), and the arms in which the
parsed data does not match the configured format are unreachable because
`parse_data` dispatches on the same `self.fmt`. -/
def get_tracks (fm : LastFM) (c : LruCache) (user : JsonVal) (limit : JsonVal)
    (http : String → HttpResponse) :
    Except PyErr (List Track) × LruCache × List String :=
  if !pyTruthy user then (.error PyErr.assertionError, c, [])
  else
    let keys0 : List (String × JsonVal) := [("user", user), ("extended", JsonVal.str "1")]
    let keys := if !limit.isNull then dictSet keys0 "limit" limit else keys0
    match call_api fm c "user.getRecentTracks" keys http with
    | (.error e, c1, urls) => (.error e, c1, urls)
    | (.ok data, c1, urls) =>
      if fm.fmt == "json" then
        match data with
        | ParsedData.jsonData v =>
          (match extract_tracks_json v with
           | .ok ts => (.ok ts, c1, urls)
           | .error e => (.error e, c1, urls))
        | ParsedData.xmlData _ => (.error PyErr.typeError, c1, urls)
      else
        match data with
        | ParsedData.xmlData d =>
          (match (getElems "track" d).mapM Track.from_xml with
           | .ok ts => (.ok ts, c1, urls)
           | .error e => (.error e, c1, urls))
        | ParsedData.jsonData _ => (.error PyErr.typeError, c1, urls)

/-- The three runtime shapes `get_track_info` accepts for its `track`
argument: a raw mbid string, an `(artist, title)` tuple, or a `Track`
instance. -/
inductive TrackRef where
  | mbidStr (s : String) : TrackRef
  | pair (artist title : JsonVal) : TrackRef
  | trackObj (t : Track) : TrackRef

/-- The track-reference dispatch of `get_track_info`.  `hasattr(track,
"mbid")` holds exactly for `Track` instances (`__init__` always assigns
`mbid`); for one whose `mbid` is `None` the code then evaluates
`track.track`, an attribute `class Track` never defines — the `artist`
and `title` fields notwithstanding — so that branch raises
`AttributeError` (the preceding `keys["artist"]` write is discarded with
the exception). -/
def track_ref_keys (track : TrackRef) : Except PyErr (List (String × JsonVal)) :=
  match track with
  | TrackRef.trackObj t =>
    if !t.mbid.isNull then .ok [("mbid", t.mbid)]
    else .error PyErr.attributeError
  | TrackRef.mbidStr s => .ok [("mbid", JsonVal.str s)]
  | TrackRef.pair a ti => .ok [("artist", a), ("track", ti)]

/-- `LastFM.get_track_info`: optional `username`, the track-reference
dispatch, then `call_api("track.getInfo", **keys)`. -/
def get_track_info (fm : LastFM) (c : LruCache) (track : TrackRef) (user : JsonVal)
    (http : String → HttpResponse) :
    Except PyErr ParsedData × LruCache × List String :=
  let keys0 : List (String × JsonVal) := if pyTruthy user then [("username", user)] else []
  match track_ref_keys track with
  | .error e => (.error e, c, [])
  | .ok tkeys =>
    call_api fm c "track.getInfo" (tkeys.foldl (fun ks p => dictSet ks p.1 p.2) keys0) http

/-- The value of the class attribute `__slots__` on `Track`: the class
never assigns one (its `__init__` sets plain instance attributes), so the
lookup `self.__slots__` finds nothing. -/
def Track.slotsAttr : Option (List String) := none

/-- `getattr(self, name)` on a `Track` for the instance attributes
`__init__` assigns. -/
def Track.getattrOpt (t : Track) (name : String) : Option JsonVal :=
  if name == "artist" then some t.artist
  else if name == "title" then some t.title
  else if name == "album" then some t.album
  else if name == "tags" then some t.tags
  else if name == "duration" then some t.duration
  else if name == "loved" then some t.loved
  else if name == "mbid" then some t.mbid
  else if name == "playing" then some t.playing
  else if name == "description" then some t.description
  else none

/-- Field-name characters up to the closing brace of a replacement field. -/
def splitAtRBrace : List Char → Option (String × List Char)
  | [] => none
  | c :: rest =>
    if c == charRBrace then some ("", rest)
    else (splitAtRBrace rest).map (fun p => (String.mk [c] ++ p.1, p.2))

/-- `str.format(**props)` (stdlib model, fuel-indexed): substitute
`str(props[name])` for each brace-delimited `name`, with doubled braces
as escapes; an unknown name raises `KeyError`, stray braces `ValueError`. -/
def pyFormatAux : Nat → List Char → List Char → List (String × JsonVal) →
    Except PyErr String
  | 0, _, _, _ => .error PyErr.valueError
  | fuel + 1, acc, cs, props =>
    match cs with
    | [] => .ok (String.mk acc.reverse)
    | c :: rest =>
      if c == charLBrace then
        match rest with
        | [] => .error PyErr.valueError
        | d :: rest2 =>
          if d == charLBrace then pyFormatAux fuel (charLBrace :: acc) rest2 props
          else
            match splitAtRBrace (d :: rest2) with
            | none => .error PyErr.valueError
            | some (name, rest3) =>
              match dictLookup props name with
              | some v => pyFormatAux fuel ((pyStr v).data.reverse ++ acc) rest3 props
              | none => .error PyErr.keyError
      else if c == charRBrace then
        match rest with
        | d :: rest2 =>
          if d == charRBrace then pyFormatAux fuel (charRBrace :: acc) rest2 props
          else .error PyErr.valueError
        | [] => .error PyErr.valueError
      else pyFormatAux fuel (c :: acc) rest props

/-- `str.format(**props)` (stdlib model). -/
def pyFormat (fmt : String) (props : List (String × JsonVal)) : Except PyErr String :=
  pyFormatAux (fmt.length + 1) [] fmt.data props

/-- `Track.format(self, fmt, **props)`.  Its first statement iterates
`self.__slots__`; `Track` never defines `__slots__`, so the attribute
lookup raises `AttributeError` before any substitution happens.  The
unreachable arm transcribes the rest of the body: the dict comprehension
keeps the non-`None` fields, and `props.update(d)` makes the *entity*
fields overwrite same-named caller-supplied properties. -/
def Track.format (t : Track) (fmt : String) (props : List (String × JsonVal)) :
    Except PyErr String :=
  match Track.slotsAttr with
  | none => .error PyErr.attributeError
  | some slots =>
    let d := slots.filterMap (fun n =>
      match t.getattrOpt n with
      | some v => if !v.isNull then some (n, v) else none
      | none => none)
    let merged := d.foldl (fun ps p => dictSet ps p.1 p.2) props
    pyFormat fmt merged

/-- Modelled from the claim statement, not from the source: ASCII percent-
decoding (`unquote_plus`) used to *state* the order-independent parameter
set of a built URL. -/
def unquotePlusChars : List Char → List Char
  | [] => []
  | '+' :: rest => ' ' :: unquotePlusChars rest
  | '%' :: h1 :: h2 :: rest =>
    (match hexVal h1, hexVal h2 with
     | some a, some b => Char.ofNat (16 * a + b) :: unquotePlusChars rest
     | _, _ => '%' :: unquotePlusChars (h1 :: h2 :: rest))
  | c :: rest => c :: unquotePlusChars rest

/-- Split on a separator character. -/
def splitChars (sep : Char) : List Char → List (List Char)
  | [] => [[]]
  | c :: rest =>
    if c == sep then [] :: splitChars sep rest
    else
      match splitChars sep rest with
      | [] => [[c]]
      | g :: gs => (c :: g) :: gs

/-- Split at the first `=`. -/
def splitFirstEq : List Char → List Char × List Char
  | [] => ([], [])
  | c :: rest =>
    if c == '=' then ([], rest)
    else
      let p := splitFirstEq rest
      (c :: p.1, p.2)

/-- Characters after the first `?`. -/
def afterQuestionMark : List Char → List Char
  | [] => []
  | c :: rest => if c == '?' then rest else afterQuestionMark rest

/-- Modelled from the claim statement, not from the source: the decoded
`key = value` pairs of the query string of a URL. -/
def decodeQueryParams (url : String) : List (String × String) :=
  (splitChars '&' (afterQuestionMark url.data)).map (fun kv =>
    let p := splitFirstEq kv
    (String.mk (unquotePlusChars p.1), String.mk (unquotePlusChars p.2)))

/-! ### Concrete inputs used by the claim witnesses -/

/-- A JSON track item with plain string artist and no optional fields. -/
def jsonTrackPlain : List (String × JsonVal) :=
  [("name", JsonVal.str "T"), ("artist", JsonVal.str "A")]

/-- The same item with `loved = "1"`. -/
def jsonTrackLoved1 : List (String × JsonVal) :=
  jsonTrackPlain ++ [("loved", JsonVal.str "1")]

/-- The same item with `loved = "0"`. -/
def jsonTrackLoved0 : List (String × JsonVal) :=
  jsonTrackPlain ++ [("loved", JsonVal.str "0")]

/-- The same item with an empty-string `mbid`. -/
def jsonTrackMbidEmpty : List (String × JsonVal) :=
  jsonTrackPlain ++ [("mbid", JsonVal.str "")]

/-- A JSON track item with nested-object artist. -/
def jsonTrackNested : List (String × JsonVal) :=
  [("name", JsonVal.str "One More Time"),
   ("artist", JsonVal.obj [("#text", JsonVal.str "Daft Punk")])]

/-- The `Track` parsed from `jsonTrackPlain` (also from `xmlTrackNoLoved`). -/
def trackPlain : Track :=
  { artist := JsonVal.str "A", title := JsonVal.str "T", playing := JsonVal.bool false }

/-- The `Track` parsed from `jsonTrackLoved1`. -/
def trackLoved1 : Track := { trackPlain with loved := JsonVal.bool true }

/-- The `Track` parsed from `jsonTrackLoved0`. -/
def trackLoved0 : Track := { trackPlain with loved := JsonVal.bool false }

/-- `trackPlain` with an mbid, for the track-reference dispatch. -/
def trackWithMbid : Track := { trackPlain with mbid := JsonVal.str "m" }

/-- The `Track` parsed from `jsonTrackNested`. -/
def trackNested : Track :=
  { artist := JsonVal.str "Daft Punk", title := JsonVal.str "One More Time",
    playing := JsonVal.bool false }

/-- An XML track element with empty album and mbid children and no loved
child. -/
def xmlTrackNoLoved : XmlNode :=
  XmlNode.elem "track" []
    [XmlNode.elem "artist" [] [XmlNode.text "A"],
     XmlNode.elem "name" [] [XmlNode.text "T"],
     XmlNode.elem "album" [] [],
     XmlNode.elem "mbid" [] []]

/-- The same element with a `loved` child holding `1`. -/
def xmlTrackLoved1 : XmlNode :=
  XmlNode.elem "track" []
    [XmlNode.elem "artist" [] [XmlNode.text "A"],
     XmlNode.elem "name" [] [XmlNode.text "T"],
     XmlNode.elem "album" [] [],
     XmlNode.elem "mbid" [] [],
     XmlNode.elem "loved" [] [XmlNode.text "1"]]

/-! ### Helper lemmas -/

theorem dictContains_eq {α : Type} (d : List (String × α)) (key : String) :
    dictContains d key = (dictLookup d key).isSome := by
  induction d with
  | nil => rfl
  | cons p rest ih =>
    by_cases h : p.1 == key
    · simp [dictContains, dictLookup, List.find?, h]
    · simpa [dictContains, dictLookup, List.find?, h] using ih

theorem pyEq_str_iff (v : JsonVal) (s : String) :
    pyEq v (JsonVal.str s) = true ↔ v = JsonVal.str s := by
  cases v <;> simp [pyEq]

theorem from_json_ok_parts (j : JsonVal) (t : Track) (h : Track.from_json j = Except.ok t) :
    ∃ a ti al p m lv,
      json_artist_field j = Except.ok a ∧ pyIndexStr j "name" = Except.ok ti ∧
      json_album_kw j = Except.ok al ∧ json_playing_kw j = Except.ok p ∧
      json_mbid_kw j = Except.ok m ∧ json_loved_kw j = Except.ok lv ∧
      t = { artist := a, title := ti, album := al.getD JsonVal.null,
            loved := (lv.map JsonVal.bool).getD JsonVal.null,
            mbid := m.getD JsonVal.null, playing := JsonVal.bool p } := by
  unfold Track.from_json at h
  repeat' split at h
  all_goals try (exfalso; exact Except.noConfusion h)
  injection h with h2
  subst h2
  exact ⟨_, _, _, _, _, _, by assumption, by assumption, by assumption, by assumption,
    by assumption, by assumption, rfl⟩

theorem from_xml_ok_parts (x : XmlNode) (t : Track) (h : Track.from_xml x = Except.ok t) :
    ∃ aEl tEl alEl mEl,
      listGet0 (getElems "artist" x) = Except.ok aEl ∧
      listGet0 (getElems "name" x) = Except.ok tEl ∧
      listGet0 (getElems "album" x) = Except.ok alEl ∧
      listGet0 (getElems "mbid" x) = Except.ok mEl ∧
      t = { artist := JsonVal.str (xml_get_text aEl),
            title := JsonVal.str (xml_get_text tEl),
            album := if xml_get_text alEl != "" then JsonVal.str (xml_get_text alEl)
                     else JsonVal.null,
            mbid := if xml_get_text mEl != "" then JsonVal.str (xml_get_text mEl)
                    else JsonVal.null,
            playing := JsonVal.bool (x.hasAttribute "nowplaying"),
            loved := (match getElems "loved" x with
                      | [] => JsonVal.null
                      | l :: _ => JsonVal.bool (xml_get_text l == "1")) } := by
  unfold Track.from_xml at h
  repeat' split at h
  all_goals try (exfalso; exact Except.noConfusion h)
  all_goals
    (injection h with h2; subst h2;
     refine ⟨_, _, _, _, by assumption, by assumption, by assumption, by assumption, ?_⟩;
     simp_all)

theorem json_loved_kw_obj (fields : List (String × JsonVal)) :
    json_loved_kw (JsonVal.obj fields) =
      Except.ok (match dictLookup fields "loved" with
                 | none => none
                 | some v => some (pyEq v (JsonVal.str "1"))) := by
  unfold json_loved_kw
  cases hl : dictLookup fields "loved" with
  | none => simp [pyIn, dictContains_eq, hl]
  | some v => simp [pyIn, dictContains_eq, hl, pyIndexStr]

theorem json_mbid_kw_obj (fields : List (String × JsonVal)) :
    json_mbid_kw (JsonVal.obj fields) =
      Except.ok (match dictLookup fields "mbid" with
                 | none => none
                 | some m => if !(pyEq m (JsonVal.str "")) then some m else none) := by
  unfold json_mbid_kw
  cases hl : dictLookup fields "mbid" with
  | none => simp [pyIn, dictContains_eq, hl]
  | some m =>
    simp [pyIn, dictContains_eq, hl, pyIndexStr]
    split <;> rfl

theorem json_artist_field_nested (fields af : List (String × JsonVal)) (v : JsonVal)
    (ha : dictLookup fields "artist" = some (JsonVal.obj af))
    (hv : dictLookup af "#text" = some v) :
    json_artist_field (JsonVal.obj fields) = Except.ok v := by
  unfold json_artist_field
  simp [pyIndexStr, ha, pyIn, dictContains_eq, hv]

theorem json_artist_field_plain (fields : List (String × JsonVal)) (s : String)
    (ha : dictLookup fields "artist" = some (JsonVal.str s))
    (hs : strContains s "#text" = false) :
    json_artist_field (JsonVal.obj fields) = Except.ok (JsonVal.str s) := by
  unfold json_artist_field
  simp [pyIndexStr, ha, pyIn, hs, pyStr]

/-! ### Claims -/

/-- Claim C1: the `loved` field of a parsed `Track` is tri-state.  In both
wire formats, a track item without a `loved` field parses to a `Track`
whose `loved` is the not-reported value `None` (never boolean `false`); a
present `loved` equal to the literal `"1"` parses to `True`; a present
`loved` with any other value parses to `False`. -/
theorem C1_loved_tristate :
    (∀ (fields : List (String × JsonVal)) (t : Track),
        Track.from_json (JsonVal.obj fields) = Except.ok t →
        (dictLookup fields "loved" = none → t.loved = JsonVal.null) ∧
        (dictLookup fields "loved" = some (JsonVal.str "1") → t.loved = JsonVal.bool true) ∧
        (∀ v, dictLookup fields "loved" = some v → v ≠ JsonVal.str "1" →
          t.loved = JsonVal.bool false)) ∧
    (∀ (x : XmlNode) (t : Track), Track.from_xml x = Except.ok t →
        (getElems "loved" x = [] → t.loved = JsonVal.null) ∧
        (∀ l rest, getElems "loved" x = l :: rest →
          (xml_get_text l = "1" → t.loved = JsonVal.bool true) ∧
          (xml_get_text l ≠ "1" → t.loved = JsonVal.bool false))) := by
  constructor
  · intro fields t h
    obtain ⟨a, ti, al, p, m, lv, _, _, _, _, _, hlv, rfl⟩ := from_json_ok_parts _ _ h
    rw [json_loved_kw_obj] at hlv
    injection hlv with hlv
    refine ⟨?_, ?_, ?_⟩
    · intro hn
      rw [hn] at hlv
      simp at hlv
      subst hlv
      rfl
    · intro h1
      rw [h1] at hlv
      simp [pyEq] at hlv
      subst hlv
      rfl
    · intro v hv hne
      rw [hv] at hlv
      simp at hlv
      have hq : pyEq v (JsonVal.str "1") = false := by
        cases hq : pyEq v (JsonVal.str "1")
        · rfl
        · exact absurd ((pyEq_str_iff v "1").mp hq) hne
      rw [hq] at hlv
      subst hlv
      rfl
  · intro x t h
    obtain ⟨aEl, tEl, alEl, mEl, _, _, _, _, rfl⟩ := from_xml_ok_parts _ _ h
    refine ⟨?_, ?_⟩
    · intro hn; simp [hn]
    · intro l rest hl
      constructor
      · intro h1; simp [hl, h1]
      · intro hne; simp [hl, hne]

/-- Witness for C1: the theorem applied at concrete parses — `loved`
absent in JSON and XML, `loved="1"` in JSON and XML, `loved="0"` in JSON. -/
theorem C1_loved_tristate_witness :
    trackPlain.loved = JsonVal.null ∧ trackLoved1.loved = JsonVal.bool true ∧
    trackLoved0.loved = JsonVal.bool false ∧ trackPlain.loved = JsonVal.null ∧
    trackLoved1.loved = JsonVal.bool true :=
  ⟨(C1_loved_tristate.1 jsonTrackPlain trackPlain rfl).1 rfl,
   (C1_loved_tristate.1 jsonTrackLoved1 trackLoved1 rfl).2.1 rfl,
   (C1_loved_tristate.1 jsonTrackLoved0 trackLoved0 rfl).2.2 (JsonVal.str "0") rfl (by simp),
   (C1_loved_tristate.2 xmlTrackNoLoved trackPlain rfl).1 rfl,
   ((C1_loved_tristate.2 xmlTrackLoved1 trackLoved1 rfl).2
      (XmlNode.elem "loved" [] [XmlNode.text "1"]) [] rfl).1 rfl⟩

/-- Claim C6 as stated fails on the code for one family of plain-string
artists: the Python `in` operator on a string is substring containment, so a track
whose artist is the plain string `"#text"` takes the nested-object branch
and `json["artist"]["#text"]` raises `TypeError` — no `Track` with artist
`"#text"` is ever produced. -/
theorem C6_plain_artist_cex :
    Track.from_json (JsonVal.obj [("name", JsonVal.str "T"),
        ("artist", JsonVal.str "#text")]) =
      Except.error PyErr.typeError := rfl

/-- Claim C6, amended: a nested `("#text", v)` artist object extracts to
`v`; a plain-string artist `s` extracts to `s` itself provided `s` does
not contain `"#text"` as a substring (Python string `in`). -/
theorem C6_artist_encodings (fields : List (String × JsonVal)) (t : Track)
    (h : Track.from_json (JsonVal.obj fields) = Except.ok t) :
    (∀ af v, dictLookup fields "artist" = some (JsonVal.obj af) →
        dictLookup af "#text" = some v → t.artist = v) ∧
    (∀ s, dictLookup fields "artist" = some (JsonVal.str s) →
        strContains s "#text" = false → t.artist = JsonVal.str s) := by
  obtain ⟨a, ti, al, p, m, lv, ha, _, _, _, _, _, rfl⟩ := from_json_ok_parts _ _ h
  constructor
  · intro af v hart htext
    rw [json_artist_field_nested fields af v hart htext] at ha
    injection ha with ha
    exact ha.symm
  · intro s hart hs
    rw [json_artist_field_plain fields s hart hs] at ha
    injection ha with ha
    exact ha.symm

/-- Witness for C6 (amended): the theorem applied at the nested
`Daft Punk` item and at a plain-string item. -/
theorem C6_artist_encodings_witness :
    trackNested.artist = JsonVal.str "Daft Punk" ∧ trackPlain.artist = JsonVal.str "A" :=
  ⟨(C6_artist_encodings jsonTrackNested trackNested rfl).1
      [("#text", JsonVal.str "Daft Punk")] (JsonVal.str "Daft Punk") rfl rfl,
   (C6_artist_encodings jsonTrackPlain trackPlain rfl).2 "A" rfl rfl⟩

/-- Claim C7: an `mbid` that is present but equal to the empty string is
normalized to the absent value `None` in both wire formats. -/
theorem C7_mbid_empty_absent :
    (∀ (fields : List (String × JsonVal)) (t : Track),
        Track.from_json (JsonVal.obj fields) = Except.ok t →
        dictLookup fields "mbid" = some (JsonVal.str "") → t.mbid = JsonVal.null) ∧
    (∀ (x : XmlNode) (t : Track) (m : XmlNode), Track.from_xml x = Except.ok t →
        listGet0 (getElems "mbid" x) = Except.ok m → xml_get_text m = "" →
        t.mbid = JsonVal.null) := by
  constructor
  · intro fields t h hm
    obtain ⟨a, ti, al, p, m, lv, _, _, _, _, hmb, _, rfl⟩ := from_json_ok_parts _ _ h
    rw [json_mbid_kw_obj] at hmb
    injection hmb with hmb
    rw [hm] at hmb
    simp [pyEq] at hmb
    subst hmb
    rfl
  · intro x t m h hm htext
    obtain ⟨aEl, tEl, alEl, mEl, _, _, _, hmEl, rfl⟩ := from_xml_ok_parts _ _ h
    rw [hmEl] at hm
    injection hm with hm
    subst hm
    simp [htext]

/-- Witness for C7: the theorem applied at a JSON item with `mbid=""` and
at an XML element whose `mbid` child is empty. -/
theorem C7_mbid_empty_absent_witness :
    trackPlain.mbid = JsonVal.null ∧ trackPlain.mbid = JsonVal.null :=
  ⟨C7_mbid_empty_absent.1 jsonTrackMbidEmpty trackPlain rfl rfl,
   C7_mbid_empty_absent.2 xmlTrackNoLoved trackPlain (XmlNode.elem "mbid" [] [])
     rfl rfl rfl⟩

/-- Claim C5: in the json branch of `get_tracks`, a response whose
`track` entry is a single bare track object yields exactly the same track
sequence as a response whose `track` entry is the one-element list
holding that object. -/
theorem C5_bare_track_normalized (fields : List (String × JsonVal)) :
    extract_tracks_json (JsonVal.obj [("recenttracks",
        JsonVal.obj [("track", JsonVal.obj fields)])]) =
      extract_tracks_json (JsonVal.obj [("recenttracks",
        JsonVal.obj [("track", JsonVal.arr [JsonVal.obj fields])])]) := rfl

/-- Claim C10: `get_tracks` with a `None` or empty-string user fails the
`assert` immediately: the result is an `AssertionError`, the query-string
cache is untouched (no URL was built) and no request was issued. -/
theorem C10_get_tracks_user_assert (fm : LastFM) (c : LruCache) (limit : JsonVal)
    (http : String → HttpResponse) :
    get_tracks fm c JsonVal.null limit http = (Except.error PyErr.assertionError, c, []) ∧
    get_tracks fm c (JsonVal.str "") limit http =
      (Except.error PyErr.assertionError, c, []) := by
  constructor <;> rfl

/-- Claim C2 is broken in the code: every call of `Track.format` raises
`AttributeError`, because its first statement reads `self.__slots__` and
`class Track` never defines `__slots__`; no substitution ever happens
(and the dead remainder would let entity fields override caller-supplied
properties via `props.update(d)`, the reverse of the specified
precedence). -/
theorem C2_format_raises (t : Track) (fmt : String) (props : List (String × JsonVal)) :
    Track.format t fmt props = Except.error PyErr.attributeError := rfl

/-- Claim C9 at the four reference shapes: an mbid string, an (artist,
title) pair and a `Track` carrying an mbid resolve to the canonical
parameter sets, but a `Track` whose mbid is absent raises
`AttributeError` (the code reads the nonexistent attribute `track.track`
instead of `track.title`). -/
theorem C9_track_ref_dispatch :
    track_ref_keys (TrackRef.mbidStr "m") = Except.ok [("mbid", JsonVal.str "m")] ∧
    track_ref_keys (TrackRef.pair (JsonVal.str "A") (JsonVal.str "T")) =
      Except.ok [("artist", JsonVal.str "A"), ("track", JsonVal.str "T")] ∧
    track_ref_keys (TrackRef.trackObj trackWithMbid) =
      Except.ok [("mbid", JsonVal.str "m")] ∧
    track_ref_keys (TrackRef.trackObj trackPlain) = Except.error PyErr.attributeError :=
  ⟨rfl, rfl, rfl, rfl⟩

/-- Claim C3 is broken in the code: `build_qs` is memoized by
`lru_cache`, whose key is `(self, **keys)` with `self` hashed by
identity, so after `api_key` is mutated on the same instance a repeated
call returns the cached URL built from the *old* key — here the call
under `api_key="K2"` still returns the `api_key=K1` URL, while an
uncached build produces the `K2` URL. -/
theorem C3_build_qs_stale_key :
    (build_qs ⟨7, "K2", "json"⟩
        (build_qs ⟨7, "K1", "json"⟩ (LruCache.empty 32) [("method", JsonVal.str "x")]).2
        [("method", JsonVal.str "x")]).1 =
      "http://ws.audioscrobbler.com/2.0/?method=x&api_key=K1" ∧
    build_qs_body ⟨7, "K2", "json"⟩ [("method", JsonVal.str "x")] =
      "http://ws.audioscrobbler.com/2.0/?method=x&api_key=K2" ∧
    dictLookup (decodeQueryParams
        "http://ws.audioscrobbler.com/2.0/?method=x&api_key=K1") "api_key" =
      some "K1" :=
  ⟨rfl, rfl, rfl⟩

theorem call_api_non200 (fm : LastFM) (c : LruCache) (method : String)
    (keys : List (String × JsonVal)) (resp : HttpResponse) (body : String)
    (hs : resp.status ≠ 200) (ht : resp.text = Except.ok body) :
    call_api fm c method keys (fun _ => resp) =
      (Except.error (PyErr.lastFMError resp.status body),
       (build_qs fm c (call_api_keys fm method keys)).2,
       [(build_qs fm c (call_api_keys fm method keys)).1]) := by
  unfold call_api
  simp [hs, ht]

/-- Claim C4: a response with a non-success status and readable body text
makes `call_api` fail with `LastFMError` carrying exactly that status and
body, and `get_tracks` (the retrieval operation) propagates the same
error — no track list reaches the caller. -/
theorem C4_transport_error (fm : LastFM) (c : LruCache) (method : String)
    (keys : List (String × JsonVal)) (resp : HttpResponse) (body : String)
    (hs : resp.status ≠ 200) (ht : resp.text = Except.ok body) :
    (call_api fm c method keys (fun _ => resp)).1 =
      Except.error (PyErr.lastFMError resp.status body) ∧
    (∀ (c2 : LruCache) (user limit : JsonVal), pyTruthy user = true →
      (get_tracks fm c2 user limit (fun _ => resp)).1 =
        Except.error (PyErr.lastFMError resp.status body)) := by
  constructor
  · rw [call_api_non200 fm c method keys resp body hs ht]
  · intro c2 user limit hu
    unfold get_tracks
    simp only [hu, Bool.not_true, Bool.false_eq_true, if_false]
    rw [call_api_non200 fm c2 "user.getRecentTracks" _ resp body hs ht]

/-- Witness for C4: status 500 with body `Internal error` under a
json-mode client. -/
theorem C4_transport_error_witness :
    (call_api ⟨0, "K", "json"⟩ (LruCache.empty 32) "user.getRecentTracks"
        [("user", JsonVal.str "alice")] (fun _ => ⟨500, Except.ok "Internal error"⟩)).1 =
      Except.error (PyErr.lastFMError 500 "Internal error") ∧
    (get_tracks ⟨0, "K", "json"⟩ (LruCache.empty 32) (JsonVal.str "alice") JsonVal.null
        (fun _ => ⟨500, Except.ok "Internal error"⟩)).1 =
      Except.error (PyErr.lastFMError 500 "Internal error") :=
  ⟨(C4_transport_error ⟨0, "K", "json"⟩ (LruCache.empty 32) "user.getRecentTracks"
      [("user", JsonVal.str "alice")] ⟨500, Except.ok "Internal error"⟩ "Internal error"
      (by decide) rfl).1,
   (C4_transport_error ⟨0, "K", "json"⟩ (LruCache.empty 32) "user.getRecentTracks"
      [("user", JsonVal.str "alice")] ⟨500, Except.ok "Internal error"⟩ "Internal error"
      (by decide) rfl).2 (LruCache.empty 32) (JsonVal.str "alice") JsonVal.null rfl⟩

/-- Claim C8: the URL built for `user.getRecentTracks` with
`user=alice, limit=5` under key `K` decodes to exactly the parameter set
`method, user, limit, api_key` — as an order-independent permutation —
plus `format=json` exactly when the client is in json mode (and not in
xml mode). -/
theorem C8_recent_tracks_url_params :
    List.Perm
      (decodeQueryParams (build_qs ⟨0, "K", "json"⟩ (LruCache.empty 32)
        (call_api_keys ⟨0, "K", "json"⟩ "user.getRecentTracks"
          [("user", JsonVal.str "alice"), ("limit", JsonVal.num 5)])).1)
      [("method", "user.getRecentTracks"), ("user", "alice"), ("limit", "5"),
       ("api_key", "K"), ("format", "json")] ∧
    List.Perm
      (decodeQueryParams (build_qs ⟨1, "K", "xml"⟩ (LruCache.empty 32)
        (call_api_keys ⟨1, "K", "xml"⟩ "user.getRecentTracks"
          [("user", JsonVal.str "alice"), ("limit", JsonVal.num 5)])).1)
      [("method", "user.getRecentTracks"), ("user", "alice"), ("limit", "5"),
       ("api_key", "K")] := by
  constructor <;> decide
